import Mathlib

/- Shallow embedding of numpy_ros/geometry_msgs.py: the conversion handlers between
ROS geometry_msgs messages and numpy arrays, together with the small fragment of
numpy / numpy-quaternion behaviour those handlers rely on.  Numeric values are
modelled as exact rationals; every value exercised below is exactly representable
in its array's dtype, so float rounding plays no role in the statements. -/

set_option maxHeartbeats 1000000

/-- Floating-point storage widths of the numpy arrays used by the codec. -/
inductive DType
  | f16
  | f32
  | f64
deriving DecidableEq

/-- Position in the safe-cast chain float16 < float32 < float64. -/
def DType.rank : DType → Nat
  | .f16 => 0
  | .f32 => 1
  | .f64 => 2

/-- The exceptions the handlers can raise.  The spec's taxonomy maps ShapeError,
InvalidHomogeneousComponentError, InvalidTransformError onto ValueError and
CastError onto TypeError; the remaining constructors are errors numpy or Python
itself raises on the corresponding operations. -/
inductive NPErr
  | shapeError
  | castError
  | invalidHomogeneous
  | invalidTransform
  | arityError
  | dtypeInterpError
  | ambiguousTruth
  | attrError
  | reshapeError
  | splitError
deriving DecidableEq

/-- Second argument of np.can_cast as the source uses it: either a numpy dtype, or
(in numpy_to_frame's single-matrix branch) the Pose message class. -/
inductive CastTarget
  | dt (d : DType)
  | msgClass
deriving DecidableEq

/-- np.can_cast under the default safe casting rule, restricted to the float dtypes
the codec uses.  Handed a message class instead of a dtype, numpy cannot interpret
the argument as a data type and raises TypeError. -/
def np_can_cast : DType → CastTarget → Except NPErr Bool
  | d, .dt t => .ok (decide (d.rank ≤ t.rank))
  | _, .msgClass => .error .dtypeInterpError

/-- A numpy array: dtype, shape, and the flat row-major data. -/
structure NDArr where
  dtype : DType
  shape : List Nat
  data : List ℚ
deriving DecidableEq

/-- Python len() of an array: its first dimension. -/
def NDArr.pyLen (a : NDArr) : Nat := a.shape.headD 0

/-- Number of dimensions. -/
def NDArr.ndim (a : NDArr) : Nat := a.shape.length

/-- Element (i, j) of a 2-D array in row-major storage. -/
def NDArr.elem2 (a : NDArr) (i j : Nat) : ℚ := a.data.getD (i * a.shape.getD 1 0 + j) 0

/- Rational arithmetic is written below through the normalizing constructor mkRat
and the comparison Rat.blt rather than the ambient +, -, *, ≤ of ℚ, because the
latter are deliberately irreducible and would block kernel evaluation of the codec
on concrete inputs; each helper is the textbook num/den formula of the operation it
names. -/

/-- a ≤ b on ℚ, as a computable Bool. -/
def qLe (a b : ℚ) : Bool := !Rat.blt b a

/-- |a| on ℚ. -/
def qAbs (a : ℚ) : ℚ := if Rat.blt a 0 then mkRat (-a.num) a.den else a

/-- a - b on ℚ. -/
def qSub (a b : ℚ) : ℚ := mkRat (a.num * b.den - b.num * a.den) (a.den * b.den)

/-- a + b on ℚ. -/
def qAdd (a b : ℚ) : ℚ := mkRat (a.num * b.den + b.num * a.den) (a.den * b.den)

/-- a * b on ℚ. -/
def qMul (a b : ℚ) : ℚ := mkRat (a.num * b.num) (a.den * b.den)

/-- Largest finite float16 value. -/
def float16Max : ℚ := 65504

/-- Largest finite float32 value, (2 - 2 ^ (-23)) * 2 ^ 127 = 2 ^ 128 - 2 ^ 104. -/
def float32Max : ℚ := mkRat (Int.pow 2 128 - Int.pow 2 104) 1

/-- np.min_scalar_type of a Python/numpy float scalar: the smallest float dtype
whose range holds the value. -/
def min_scalar_type_scalar (v : ℚ) : DType :=
  if qLe (qAbs v) float16Max then .f16
  else if qLe (qAbs v) float32Max then .f32
  else .f64

/-- Source `_assert_is_castable(array, dtype)` applied to a (non-scalar) array:
np.min_scalar_type of a non-scalar array is the array's dtype unmodified, and the
check raises TypeError (CastError) when that dtype cannot be safely cast. -/
def assert_is_castable (array : NDArr) (dtype : CastTarget) : Except NPErr Unit := do
  let ok ← np_can_cast array.dtype dtype
  if ok then pure () else .error .castError

/-- Source `_assert_is_castable(scalar, dtype)` applied to a float scalar (the mass
argument of numpy_to_inertia), where np.min_scalar_type works by value range. -/
def assert_is_castable_scalar (v : ℚ) (dtype : CastTarget) : Except NPErr Unit := do
  let ok ← np_can_cast (min_scalar_type_scalar v) dtype
  if ok then pure () else .error .castError

/-- np.isclose with its default tolerances: |a - b| ≤ atol + rtol * |b| with
atol = 1e-8 and rtol = 1e-5. -/
def npIsclose (a b : ℚ) : Bool :=
  qLe (qAbs (qSub a b)) (qAdd (mkRat 1 100000000) (qMul (mkRat 1 100000) (qAbs b)))

/-- Reduction of bind over a successful Except computation. -/
theorem ebind_ok {ε α β : Type} (a : α) (f : α → Except ε β) :
    (Except.ok a >>= f) = f a := rfl

/-- Reduction of bind over a failed Except computation. -/
theorem ebind_err {ε α β : Type} (e : ε) (f : α → Except ε β) :
    ((Except.error e : Except ε α) >>= f) = Except.error e := rfl

/-- The geometry_msgs message types handled by the module, as one untyped record
universe mirroring Python's duck typing: each constructor is one message type with
its fields in declaration order (headers of stamped types carry no numeric data and
are omitted). -/
inductive Msg
  | Vector3 (x y z : ℚ)
  | Point (x y z : ℚ)
  | Point32 (x y z : ℚ)
  | Vector3Stamped (vector : Msg)
  | PointStamped (point : Msg)
  | Accel (linear angular : Msg)
  | AccelStamped (accel : Msg)
  | Twist (linear angular : Msg)
  | TwistStamped (twist : Msg)
  | Wrench (force torque : Msg)
  | WrenchStamped (wrench : Msg)
  | AccelWithCovariance (accel : Msg) (covariance : List ℚ)
  | AccelWithCovarianceStamped (accel : Msg)
  | TwistWithCovariance (twist : Msg) (covariance : List ℚ)
  | TwistWithCovarianceStamped (twist : Msg)
  | Inertia (m : ℚ) (com : Msg) (ixx ixy ixz iyy iyz izz : ℚ)
  | InertiaStamped (inertia : Msg)
  | Polygon (points : List Msg)
  | PolygonStamped (polygon : Msg)
  | Quaternion (x y z w : ℚ)
  | QuaternionStamped (quaternion : Msg)
  | Pose (position orientation : Msg)
  | PoseStamped (pose : Msg)
  | Transform (translation rotation : Msg)
  | TransformStamped (transform : Msg)

/-- The `_stamped_type_to_attr` lookup fused with getattr: for a recognized stamped
type, the payload field; otherwise none. -/
def stamped_attr : Msg → Option Msg
  | .AccelStamped a => some a
  | .AccelWithCovarianceStamped a => some a
  | .InertiaStamped i => some i
  | .PointStamped p => some p
  | .PolygonStamped p => some p
  | .PoseStamped p => some p
  | .QuaternionStamped q => some q
  | .TransformStamped t => some t
  | .TwistStamped t => some t
  | .TwistWithCovarianceStamped t => some t
  | .Vector3Stamped v => some v
  | .WrenchStamped w => some w
  | _ => none

/-- Source `_unstamp(message)`: return the payload of a recognized stamped message,
any other message unchanged. -/
def unstamp (message : Msg) : Msg :=
  match stamped_attr message with
  | some payload => payload
  | none => message

/-- Target types registered for numpy_to_vector. -/
inductive VecTarget
  | vector3
  | point
  | point32
deriving DecidableEq

/-- `np.float32 if message_type is Point32 else np.float64`. -/
def vecTargetDType : VecTarget → DType
  | .point32 => .f32
  | _ => .f64

/-- `message_type(*array[:3])` for the three vector-like targets. -/
def mkVecMsg : VecTarget → ℚ → ℚ → ℚ → Msg
  | .vector3, x, y, z => .Vector3 x y z
  | .point, x, y, z => .Point x y z
  | .point32, x, y, z => .Point32 x y z

/-- Body of vector_to_numpy after the `message = _unstamp(message)` line: read x, y,
z, append 1.0 in homogeneous mode, build the array with dtype float32 exactly when
the (unstamped) message is a Point32.  Reading the fields of any other message type
raises AttributeError. -/
def vector_to_numpy_rest (message : Msg) (homogeneous : Bool) : Except NPErr NDArr :=
  match message with
  | .Vector3 x y z =>
      .ok ⟨.f64, [if homogeneous then 4 else 3], [x, y, z] ++ (if homogeneous then [1] else [])⟩
  | .Point x y z =>
      .ok ⟨.f64, [if homogeneous then 4 else 3], [x, y, z] ++ (if homogeneous then [1] else [])⟩
  | .Point32 x y z =>
      .ok ⟨.f32, [if homogeneous then 4 else 3], [x, y, z] ++ (if homogeneous then [1] else [])⟩
  | _ => .error .attrError

/-- Source vector_to_numpy: unstamp, then convert the 3d vector message to a flat
array. -/
def vector_to_numpy (message : Msg) (homogeneous : Bool) : Except NPErr NDArr :=
  vector_to_numpy_rest (unstamp message) homogeneous

/-- Source numpy_to_vector: shape must be (3,) or (4,); the array must be castable
to the target dtype; a 4-array's last component must be np.isclose to 1.0; the
message is built from the first three components. -/
def numpy_to_vector (message_type : VecTarget) (array : NDArr) : Except NPErr Msg := do
  if ¬(array.shape = [3] ∨ array.shape = [4]) then .error .shapeError
  else do
    assert_is_castable array (.dt (vecTargetDType message_type))
    if array.pyLen = 4 ∧ npIsclose (array.data.getD 3 0) 1 = false then
      .error .invalidHomogeneous
    else
      .ok (mkVecMsg message_type (array.data.getD 0 0) (array.data.getD 1 0)
        (array.data.getD 2 0))

/-- Modelled from the spec: the registration decorator of numpy_ros.conversions (a
module of this repository that is not under src/) lets the source call a registered
encoder without its target-type argument, as in `numpy_to_vector(linear)`; the spec
describes the kinematics encoder as simply encoding each half into the message's
vector fields, whose type is Vector3, so the default target is modelled as
Vector3. -/
def numpy_to_vector_default (array : NDArr) : Except NPErr Msg :=
  numpy_to_vector .vector3 array

/-- Target types registered for numpy_to_kinamatics. -/
inductive KinTarget
  | accel
  | twist
  | wrench
deriving DecidableEq

/-- Construction of the kinematics message from its two halves: field pair
force/torque for Wrench, linear/angular otherwise. -/
def mkKinMsg : KinTarget → Msg → Msg → Msg
  | .accel, l, a => .Accel l a
  | .twist, l, a => .Twist l a
  | .wrench, l, a => .Wrench l a

/-- Body of kinematics_to_numpy after unstamping: pick force/torque when the message
is a Wrench, linear/angular otherwise, and decode both halves through
vector_to_numpy. -/
def kinematics_to_numpy_rest (message : Msg) (homogeneous : Bool) :
    Except NPErr (NDArr × NDArr) :=
  match message with
  | .Wrench f t => do
      let linear ← vector_to_numpy f homogeneous
      let angular ← vector_to_numpy t homogeneous
      .ok (linear, angular)
  | .Accel l a | .Twist l a => do
      let linear ← vector_to_numpy l homogeneous
      let angular ← vector_to_numpy a homogeneous
      .ok (linear, angular)
  | _ => .error .attrError

/-- Source kinematics_to_numpy. -/
def kinematics_to_numpy (message : Msg) (homogeneous : Bool) :
    Except NPErr (NDArr × NDArr) :=
  kinematics_to_numpy_rest (unstamp message) homogeneous

/-- Source numpy_to_kinamatics (sic): encode each half with the type-defaulted
vector encoder and assign to the field pair selected by the target type. -/
def numpy_to_kinamatics (message_type : KinTarget) (linear angular : NDArr) :
    Except NPErr Msg := do
  let lm ← numpy_to_vector_default linear
  let am ← numpy_to_vector_default angular
  .ok (mkKinMsg message_type lm am)

/-- Body of kinematics_with_covariance_to_numpy after unstamping: pick the nested
accel/twist message, decode it, and reshape the flat 36-element covariance into a
6 by 6 float64 matrix (numpy raises ValueError when the element count is not 36). -/
def kinematics_with_covariance_to_numpy_rest (message : Msg) (homogeneous : Bool) :
    Except NPErr (NDArr × NDArr × NDArr) :=
  match message with
  | .AccelWithCovariance sub cov | .TwistWithCovariance sub cov => do
      let p ← kinematics_to_numpy sub homogeneous
      if cov.length = 36 then .ok (p.1, p.2, NDArr.mk .f64 [6, 6] cov)
      else .error .reshapeError
  | _ => .error .attrError

/-- Source kinematics_with_covariance_to_numpy. -/
def kinematics_with_covariance_to_numpy (message : Msg) (homogeneous : Bool) :
    Except NPErr (NDArr × NDArr × NDArr) :=
  kinematics_with_covariance_to_numpy_rest (unstamp message) homogeneous

/-- Source numpy_to_covariance: cast check against float64, shape must be exactly
(6,6), then row-major flatten into the 36-element tuple. -/
def numpy_to_covariance (array : NDArr) : Except NPErr (List ℚ) := do
  assert_is_castable array (.dt .f64)
  if array.shape ≠ [6, 6] then .error .shapeError
  else .ok array.data

/-- Target types registered for numpy_to_kinematics_with_covariance. -/
inductive KinCovTarget
  | accelCov
  | twistCov
deriving DecidableEq

/-- Construction of the covariance-augmented message. -/
def mkKinCovMsg : KinCovTarget → Msg → List ℚ → Msg
  | .accelCov, k, c => .AccelWithCovariance k c
  | .twistCov, k, c => .TwistWithCovariance k c

/-- Source numpy_to_kinematics_with_covariance: build the nested kinematics message
with numpy_to_kinamatics, flatten the covariance with numpy_to_covariance, and
assemble the message. -/
def numpy_to_kinematics_with_covariance (message_type : KinCovTarget)
    (linear angular covariance : NDArr) : Except NPErr Msg := do
  let k ← numpy_to_kinamatics
    (match message_type with | .accelCov => .accel | .twistCov => .twist) linear angular
  let c ← numpy_to_covariance covariance
  .ok (mkKinCovMsg message_type k c)

/-- Body of inertia_to_numpy after unstamping: scalar mass, center of mass through
vector_to_numpy, and the 3 by 3 tensor assembled from the six moment fields by
mirroring across the diagonal (row-major float64 array). -/
def inertia_to_numpy_rest (message : Msg) (homogeneous : Bool) :
    Except NPErr (ℚ × NDArr × NDArr) :=
  match message with
  | .Inertia m com ixx ixy ixz iyy iyz izz => do
      let mass_center ← vector_to_numpy com homogeneous
      .ok (m, mass_center,
        NDArr.mk .f64 [3, 3] [ixx, ixy, ixz, ixy, iyy, iyz, ixz, iyz, izz])
  | _ => .error .attrError

/-- Source inertia_to_numpy. -/
def inertia_to_numpy (message : Msg) (homogeneous : Bool) :
    Except NPErr (ℚ × NDArr × NDArr) :=
  inertia_to_numpy_rest (unstamp message) homogeneous

/-- Source numpy_to_inertia: cast checks on mass (a scalar) and tensor, encode the
center of mass as a Vector3, require tensor shape (3,3), then construct reading
ixx, ixy, ixz, iyy, izz from the upper triangle and iyz from tensor[2, 1]. -/
def numpy_to_inertia (mass : ℚ) (mass_center : NDArr) (inertia_tensor : NDArr) :
    Except NPErr Msg := do
  assert_is_castable_scalar mass (.dt .f64)
  assert_is_castable inertia_tensor (.dt .f64)
  let com ← numpy_to_vector .vector3 mass_center
  if inertia_tensor.shape ≠ [3, 3] then .error .shapeError
  else
    .ok (.Inertia mass com
      (inertia_tensor.elem2 0 0) (inertia_tensor.elem2 0 1) (inertia_tensor.elem2 0 2)
      (inertia_tensor.elem2 1 1) (inertia_tensor.elem2 2 1) (inertia_tensor.elem2 2 2))

/-- Error-propagating map, mirroring a Python list comprehension or append loop in
which each element conversion may raise. -/
def exceptMap {ε α β : Type} (f : α → Except ε β) : List α → Except ε (List β)
  | [] => .ok []
  | a :: as => do
      let b ← f a
      let bs ← exceptMap f as
      .ok (b :: bs)

/-- Body of polygon_to_numpy after unstamping: decode every point of the message
through vector_to_numpy, stack the results as rows of a float32 matrix and
transpose, so each column of the (3 or 4) by N result is one point.  (The empty
point list, which numpy degenerates to a shape (0,) array, is outside the scope of
the claims.) -/
def polygon_to_numpy_rest (message : Msg) (homogeneous : Bool) : Except NPErr NDArr :=
  match message with
  | .Polygon pts => do
      let arrs ← exceptMap (fun p => vector_to_numpy p homogeneous) pts
      let rows := if homogeneous then 4 else 3
      .ok (NDArr.mk .f32 [rows, pts.length]
        ((List.range rows).flatMap (fun i => arrs.map (fun a => a.data.getD i 0))))
  | _ => .error .attrError

/-- Source polygon_to_numpy. -/
def polygon_to_numpy (message : Msg) (homogeneous : Bool) : Except NPErr NDArr :=
  polygon_to_numpy_rest (unstamp message) homogeneous

/-- Column j of a 2-D array after np.hsplit and squeeze: a 1-D array of the matrix
column, keeping the dtype. -/
def npColumn (a : NDArr) (j : Nat) : NDArr :=
  ⟨a.dtype, [a.pyLen], (List.range a.pyLen).map (fun i => a.elem2 i j)⟩

/-- Source numpy_to_polygon: cast check against float32 first, then the input must
be 2-D with 3 or 4 rows, then each of the N columns is encoded as a Point32
(np.hsplit raises ValueError when there are zero columns) and the polygon message
is built from the resulting list. -/
def numpy_to_polygon (points : NDArr) : Except NPErr Msg := do
  assert_is_castable points (.dt .f32)
  if ¬(points.ndim = 2 ∧ (points.pyLen = 3 ∨ points.pyLen = 4)) then .error .shapeError
  else
    let n := points.shape.getD 1 0
    if n = 0 then .error .splitError
    else do
      let points_msg ← exceptMap (fun j => numpy_to_vector .point32 (npColumn points j))
        (List.range n)
      .ok (.Polygon points_msg)

/-- A value of the external numpy-quaternion library: the scalar part w first, then
the vector part x, y, z, matching both the argument order of its constructor
np.quaternion(w, x, y, z) and the component order of quaternion.as_float_array. -/
structure NPQuat where
  w : ℚ
  x : ℚ
  y : ℚ
  z : ℚ
deriving DecidableEq

/-- np.quaternion(a, b, c, d): the first constructor argument is the scalar part. -/
def npquaternion (a b c d : ℚ) : NPQuat := ⟨a, b, c, d⟩

/-- quaternion.as_float_array: components in the order (w, x, y, z). -/
def as_float_array (q : NPQuat) : List ℚ := [q.w, q.x, q.y, q.z]

/-- Body of quaternion_to_numpy after unstamping: np.quaternion(x, y, z, w) from
the message fields, in the field order the source passes them. -/
def quaternion_to_numpy_rest (message : Msg) : Except NPErr NPQuat :=
  match message with
  | .Quaternion x y z w => .ok (npquaternion x y z w)
  | _ => .error .attrError

/-- Source quaternion_to_numpy. -/
def quaternion_to_numpy (message : Msg) : Except NPErr NPQuat :=
  quaternion_to_numpy_rest (unstamp message)

/-- The argument of numpy_to_quaternion: either a numpy-quaternion value or a raw
array, mirroring the isinstance dispatch of the source. -/
inductive QuatInput
  | q (v : NPQuat)
  | arr (a : NDArr)

/-- Source numpy_to_quaternion: a native quaternion value is spread through
as_float_array into the message's x, y, z, w fields positionally; a raw array must
be castable to float64 and of shape (4,). -/
def numpy_to_quaternion (numpy_obj : QuatInput) : Except NPErr Msg :=
  match numpy_obj with
  | .q v =>
      let l := as_float_array v
      .ok (.Quaternion (l.getD 0 0) (l.getD 1 0) (l.getD 2 0) (l.getD 3 0))
  | .arr a => do
      assert_is_castable a (.dt .f64)
      if a.shape ≠ [4] then .error .shapeError
      else .ok (.Quaternion (a.data.getD 0 0) (a.data.getD 1 0) (a.data.getD 2 0)
        (a.data.getD 3 0))

/-- Target types of the pose/transform codec (the stamped variants reuse the same
encoder; only whether the target is Pose selects the field names). -/
inductive FrameTarget
  | pose
  | transform
deriving DecidableEq

/-- Message construction from the position/rotation keyword pair: Pose uses
position/orientation, Transform uses translation/rotation. -/
def mkFrameMsg : FrameTarget → Msg → Msg → Msg
  | .pose, p, r => .Pose p r
  | .transform, p, r => .Transform p r

/-- The 4 by 4 identity, np.eye(4), with column 3 overwritten by the decoded
(homogeneous) position and the top-left 3 by 3 block by the rotation matrix. -/
def buildHomMatrix (position rot : NDArr) : NDArr :=
  NDArr.mk .f64 [4, 4] ((List.range 4).flatMap (fun i => (List.range 4).map (fun j =>
    if j = 3 then position.data.getD i 0
    else if i ≤ 2 ∧ j ≤ 2 then rot.elem2 i j
    else if i = j then 1 else 0)))

/-- Body of frame_to_numpy after unstamping: Pose reads position/orientation,
Transform reads translation/rotation (any other message type lacks those fields);
decode the halves, and in homogeneous mode assemble the 4 by 4 matrix through the
external quaternion.as_rotation_matrix, which is passed in as a parameter. -/
def frame_to_numpy_rest (as_rotation_matrix : NPQuat → NDArr) (message : Msg)
    (homogeneous : Bool) : Except NPErr ((NDArr × NPQuat) ⊕ NDArr) :=
  match message with
  | .Pose p o | .Transform p o => do
      let position ← vector_to_numpy p homogeneous
      let rotation ← quaternion_to_numpy o
      if homogeneous then
        .ok (.inr (buildHomMatrix position (as_rotation_matrix rotation)))
      else .ok (.inl (position, rotation))
  | _ => .error .attrError

/-- Source frame_to_numpy. -/
def frame_to_numpy (as_rotation_matrix : NPQuat → NDArr) (message : Msg)
    (homogeneous : Bool) : Except NPErr ((NDArr × NPQuat) ⊕ NDArr) :=
  frame_to_numpy_rest as_rotation_matrix (unstamp message) homogeneous

/-- Row i of a 2-D array as a 1-D array, `matrix[i, :]`. -/
def npRow (a : NDArr) (i : Nat) : NDArr :=
  ⟨a.dtype, [a.shape.getD 1 0], (List.range (a.shape.getD 1 0)).map (fun j => a.elem2 i j)⟩

/-- The top-left 3 by 3 block, `matrix[:3, :3]`. -/
def submatrix3 (a : NDArr) : NDArr :=
  ⟨a.dtype, [3, 3], (List.range 3).flatMap (fun i => (List.range 3).map (fun j => a.elem2 i j))⟩

/-- Python truth-testing of `not` applied to a numpy boolean array: only a
one-element array converts to a bool; any other size raises ValueError (the truth
value of the array is ambiguous). -/
def npTruthNot (l : List Bool) : Except NPErr Bool :=
  if l.length = 1 then .ok (!l.headD true) else .error .ambiguousTruth

/-- The single-argument (4 by 4 homogeneous matrix) branch of numpy_to_frame,
translated line by line: `_assert_is_castable(matrix, Pose)` hands the Pose message
class to np.can_cast; shape must be (4,4); `not matrix[3, :] == np.array([0., 0.,
0., 1.])` truth-tests the element-wise comparison of the bottom row; on success the
source takes `matrix[3, :]` (the bottom row) as position and converts the top-left
3 by 3 block back through the external quaternion.from_rotation_matrix (a
parameter), encoding position through the type-defaulted vector encoder.  (The
two-argument branch and the ArityError branch of the source are not exercised by
any claim and are not modelled.) -/
def numpy_to_frame1 (from_rotation_matrix : NDArr → NPQuat)
    (message_type : FrameTarget) (matrix : NDArr) : Except NPErr Msg := do
  assert_is_castable matrix .msgClass
  if ¬(matrix.shape = [4, 4]) then .error .shapeError
  else do
    let row := npRow matrix 3
    let cmp := (List.range 4).map
      (fun j => decide (row.data.getD j 0 = ([0, 0, 0, 1] : List ℚ).getD j 0))
    let notEq ← npTruthNot cmp
    if notEq then .error .invalidTransform
    else do
      let position := row
      let rotation := from_rotation_matrix (submatrix3 matrix)
      let pm ← numpy_to_vector_default position
      let rm ← numpy_to_quaternion (.q rotation)
      .ok (mkFrameMsg message_type pm rm)

/- Helper lemmas shared by the claim theorems. -/

/-- Every float dtype casts safely to float64. -/
theorem np_can_cast_f64 (d : DType) : np_can_cast d (.dt .f64) = .ok true := by
  cases d <;> rfl

/-- Reduction of pure in the Except monad. -/
theorem epure {ε α : Type} (a : α) : (pure a : Except ε α) = .ok a := rfl

/-- The cast check against float64 succeeds on every array. -/
theorem assert_castable_f64 (a : NDArr) : assert_is_castable a (.dt .f64) = .ok () := by
  unfold assert_is_castable
  rw [np_can_cast_f64]
  rfl

/-- The scalar cast check against float64 succeeds on every value. -/
theorem assert_scalar_f64 (v : ℚ) : assert_is_castable_scalar v (.dt .f64) = .ok () := by
  unfold assert_is_castable_scalar
  rw [np_can_cast_f64]
  rfl

/-- The cast check succeeds whenever np.can_cast accepts the array's dtype. -/
theorem assert_castable_of_ok (a : NDArr) {t : CastTarget}
    (h : np_can_cast a.dtype t = .ok true) : assert_is_castable a t = .ok () := by
  unfold assert_is_castable
  rw [h]
  rfl

/-- A message that is not of a recognized stamped type passes through unstamp
untouched. -/
theorem unstamp_of_attr_none {m : Msg} (h : stamped_attr m = none) : unstamp m = m := by
  unfold unstamp
  rw [h]

/-- A successful numpy_to_vector call on a 3-array. -/
theorem numpy_to_vector_ok3 (t : VecTarget) (d : DType)
    (hd : np_can_cast d (.dt (vecTargetDType t)) = .ok true) (x y z : ℚ) :
    numpy_to_vector t ⟨d, [3], [x, y, z]⟩ = .ok (mkVecMsg t x y z) := by
  simp [numpy_to_vector, assert_is_castable, hd, ebind_ok, epure, NDArr.pyLen]

/-- A successful numpy_to_vector call on a 4-array whose homogeneous component is
within np.isclose tolerance of 1: the message keeps the first three components. -/
theorem numpy_to_vector_ok4 (t : VecTarget) (d : DType)
    (hd : np_can_cast d (.dt (vecTargetDType t)) = .ok true) (x y z w : ℚ)
    (hw : npIsclose w 1 = true) :
    numpy_to_vector t ⟨d, [4], [x, y, z, w]⟩ = .ok (mkVecMsg t x y z) := by
  simp [numpy_to_vector, assert_is_castable, hd, hw, ebind_ok, epure, NDArr.pyLen]

/-- numpy_to_vector on a 4-array whose homogeneous component is not close to 1
raises InvalidHomogeneousComponentError. -/
theorem numpy_to_vector_hom_err (t : VecTarget) (d : DType)
    (hd : np_can_cast d (.dt (vecTargetDType t)) = .ok true) (x y z w : ℚ)
    (hw : npIsclose w 1 = false) :
    numpy_to_vector t ⟨d, [4], [x, y, z, w]⟩ = .error .invalidHomogeneous := by
  simp [numpy_to_vector, assert_is_castable, hd, hw, ebind_ok, epure, NDArr.pyLen]

/-- numpy_to_vector rejects every shape other than (3,) and (4,) with ShapeError,
before any other check. -/
theorem numpy_to_vector_shape_err (t : VecTarget) (a : NDArr)
    (h : ¬(a.shape = [3] ∨ a.shape = [4])) :
    numpy_to_vector t a = .error .shapeError := by
  unfold numpy_to_vector
  rw [if_pos h]

/-- exceptMap over a mapped list succeeds pointwise. -/
theorem exceptMap_map_ok {ε α β γ : Type} {f : α → Except ε β} {h : γ → α} {g : γ → β}
    (l : List γ) (H : ∀ j ∈ l, f (h j) = .ok (g j)) :
    exceptMap f (l.map h) = .ok (l.map g) := by
  induction l with
  | nil => rfl
  | cons a as ih =>
      simp only [List.map_cons, exceptMap, H a (by simp), ebind_ok,
        ih (fun j hj => H j (by simp [hj]))]

/-- Reading a mapped range at an in-bounds index. -/
theorem getD_range_map (f : Nat → ℚ) {k n : Nat} (h : k < n) (d : ℚ) :
    ((List.range n).map f).getD k d = f k := by
  rw [List.getD_eq_getElem?_getD, List.getElem?_map, List.getElem?_range h]
  rfl

/-- Row-major traversal of an r by c index grid enumerates the flat range. -/
theorem range_flatMap_map (r c : Nat) (f : Nat → ℚ) :
    (List.range r).flatMap (fun i => (List.range c).map (fun j => f (i * c + j))) =
      (List.range (r * c)).map f := by
  induction r with
  | zero => simp
  | succ r ih =>
      rw [List.range_succ, List.flatMap_append, ih, Nat.succ_mul, List.range_add]
      simp [List.map_map, Function.comp]

/- Claim theorems. -/

/-- Claim C10: for every Quaternion message, encoding the result of decoding it
reproduces the message exactly: the x, y, z, w fields of
numpy_to_quaternion (quaternion_to_numpy q) equal those of q field for field (the
scalar-first component order of np.quaternion and of as_float_array cancel). -/
theorem quaternion_roundtrip_exact (x y z w : ℚ) :
    (quaternion_to_numpy (Msg.Quaternion x y z w)).bind
        (fun q => numpy_to_quaternion (QuatInput.q q)) =
      .ok (Msg.Quaternion x y z w) ∧
    quaternion_to_numpy (Msg.Quaternion x y z w) = .ok (npquaternion x y z w) :=
  ⟨rfl, rfl⟩

/-- Claim C2: for each kinematics target (Accel, Twist, Wrench), encoding a linear
3-array and an angular 3-array builds the message whose field pair (force/torque
for Wrench, linear/angular otherwise) holds the vector messages built from the two
arrays, and decoding that message returns exactly the original pair of values (as
float64 3-arrays). -/
theorem kinematics_encode_decode_roundtrip (t : KinTarget) (d1 d2 : DType)
    (lx ly lz ax ay az : ℚ) :
    numpy_to_kinamatics t ⟨d1, [3], [lx, ly, lz]⟩ ⟨d2, [3], [ax, ay, az]⟩ =
      .ok (mkKinMsg t (.Vector3 lx ly lz) (.Vector3 ax ay az)) ∧
    kinematics_to_numpy (mkKinMsg t (.Vector3 lx ly lz) (.Vector3 ax ay az)) false =
      .ok (⟨.f64, [3], [lx, ly, lz]⟩, ⟨.f64, [3], [ax, ay, az]⟩) := by
  cases t <;> cases d1 <;> cases d2 <;> exact ⟨rfl, rfl⟩

/-- Claim C3 (code bug): the cast check of the vector encoder applies
np.min_scalar_type to the whole array, which for a non-scalar array is its dtype
unmodified; hence a float64 array rejects for Point32 even when every element (such
as 1.0, 2.0, 3.0) is exactly representable in float32, contradicting the helper's
docstring and the spec's expectation that [1.0, 2.0, 3.0] encodes successfully.  An
array containing 1e300 (necessarily float64) also raises CastError, and a float32
array of the same values encodes successfully. -/
theorem point32_cast_check_uses_array_dtype :
    numpy_to_vector VecTarget.point32 ⟨.f64, [3], [1, 2, 3]⟩ = .error .castError ∧
    numpy_to_vector VecTarget.point32 ⟨.f64, [3], [mkRat (Int.pow 10 300) 1, 2, 3]⟩ =
      .error .castError ∧
    numpy_to_vector VecTarget.point32 ⟨.f32, [3], [1, 2, 3]⟩ = .ok (.Point32 1 2 3) :=
  ⟨rfl, rfl, rfl⟩

/-- Claim C1 (code bug): the single-matrix form of the pose/transform encoder fails
with numpy's cannot-interpret-as-dtype TypeError even on the 4 by 4 identity (where
the claim requires a successfully constructed message), and fails with the same
error, not ShapeError, on a 3 by 3 input, because `_assert_is_castable(matrix,
Pose)` runs before every other check. -/
theorem frame_matrix_encode_identity_fails :
    numpy_to_frame1 (fun _ => npquaternion 1 0 0 0) FrameTarget.transform
        ⟨.f64, [4, 4], [1, 0, 0, 0, 0, 1, 0, 0, 0, 0, 1, 0, 0, 0, 0, 1]⟩ =
      .error .dtypeInterpError ∧
    numpy_to_frame1 (fun _ => npquaternion 1 0 0 0) FrameTarget.transform
        ⟨.f64, [3, 3], [1, 0, 0, 0, 1, 0, 0, 0, 1]⟩ = .error .dtypeInterpError :=
  ⟨rfl, rfl⟩

/-- Claim C9 (code bug): the cast-safety check of the single-matrix branch hands
np.can_cast the Pose message class instead of a numeric dtype, so every call of
that branch, for every target type and every matrix, raises numpy's TypeError
before any validation or construction; the claimed check against float64 is never
performed. -/
theorem frame_matrix_cast_check_message_class
    (from_rotation_matrix : NDArr → NPQuat) (t : FrameTarget) (matrix : NDArr) :
    numpy_to_frame1 from_rotation_matrix t matrix = .error .dtypeInterpError := by
  obtain ⟨d, sh, data⟩ := matrix
  cases d <;> rfl

/-- Claim C4 counterexample: a length-4 float64 array whose last component is
exactly 1 nevertheless fails for the Point32 target — the cast check, which runs
before the homogeneous check and rejects every float64 array for a float32 target,
raises CastError where the claim requires success. -/
theorem vector_encode_claim_cx :
    numpy_to_vector VecTarget.point32 ⟨.f64, [4], [1, 2, 3, 1]⟩ = .error .castError :=
  rfl

/-- Claim C4 (amended): every input of shape other than (3,) or (4,) raises
ShapeError (unconditionally, the shape check being first); for every length-4 input
that passes the cast-safety check against the target dtype, the encode succeeds
and constructs the message from the first three components exactly when the last
component is within np.isclose tolerance of 1.0, and raises
InvalidHomogeneousComponentError otherwise (an input failing the cast check raises
CastError instead). -/
theorem vector_encode_shape_and_homogeneous :
    (∀ (t : VecTarget) (a : NDArr), ¬(a.shape = [3] ∨ a.shape = [4]) →
      numpy_to_vector t a = .error .shapeError) ∧
    (∀ (t : VecTarget) (d : DType) (x y z w : ℚ),
      np_can_cast d (.dt (vecTargetDType t)) = .ok true → npIsclose w 1 = true →
      numpy_to_vector t ⟨d, [4], [x, y, z, w]⟩ = .ok (mkVecMsg t x y z)) ∧
    (∀ (t : VecTarget) (d : DType) (x y z w : ℚ),
      np_can_cast d (.dt (vecTargetDType t)) = .ok true → npIsclose w 1 = false →
      numpy_to_vector t ⟨d, [4], [x, y, z, w]⟩ = .error .invalidHomogeneous) :=
  ⟨fun t a h => numpy_to_vector_shape_err t a h,
   fun t d x y z w hd hw => numpy_to_vector_ok4 t d hd x y z w hw,
   fun t d x y z w hd hw => numpy_to_vector_hom_err t d hd x y z w hw⟩

/-- Claim C4 witness: shape (2,) raises ShapeError; last component 1.0000001 is
within tolerance and encodes to the first three components; last component 0.5
raises InvalidHomogeneousComponentError. -/
theorem vector_encode_shape_and_homogeneous_witness :
    numpy_to_vector VecTarget.vector3 ⟨.f64, [2], [5, 6]⟩ = .error .shapeError ∧
    numpy_to_vector VecTarget.vector3 ⟨.f64, [4], [1, 2, 3, mkRat 10000001 10000000]⟩ =
      .ok (.Vector3 1 2 3) ∧
    numpy_to_vector VecTarget.point ⟨.f64, [4], [1, 2, 3, mkRat 1 2]⟩ =
      .error .invalidHomogeneous :=
  ⟨vector_encode_shape_and_homogeneous.1 VecTarget.vector3 _ (by decide),
   vector_encode_shape_and_homogeneous.2.1 VecTarget.vector3 .f64 1 2 3 _ rfl rfl,
   vector_encode_shape_and_homogeneous.2.2 VecTarget.point .f64 1 2 3 _ rfl rfl⟩

/-- Claim C5: decoding a covariance-augmented kinematics message reshapes its flat
36-element covariance row-major into a 6 by 6 float64 matrix, whose element (1, 2)
is the flat element of index 8; encoding flattens a (6,6) matrix row-major back
(so the covariance round-trips exactly through the full encoder) and raises
ShapeError for every covariance matrix whose shape is not (6,6). -/
theorem covariance_reshape_flatten_roundtrip :
    (∀ (t : KinCovTarget) (lx ly lz ax ay az : ℚ) (cov : List ℚ), cov.length = 36 →
      kinematics_with_covariance_to_numpy
          (mkKinCovMsg t
            (mkKinMsg (match t with | .accelCov => .accel | .twistCov => .twist)
              (.Vector3 lx ly lz) (.Vector3 ax ay az)) cov) false =
        .ok (⟨.f64, [3], [lx, ly, lz]⟩, ⟨.f64, [3], [ax, ay, az]⟩,
          ⟨.f64, [6, 6], cov⟩)) ∧
    (∀ (cov : List ℚ), (NDArr.mk .f64 [6, 6] cov).elem2 1 2 = cov.getD 8 0) ∧
    (∀ (d : DType) (cov : List ℚ), numpy_to_covariance ⟨d, [6, 6], cov⟩ = .ok cov) ∧
    (∀ (a : NDArr), a.shape ≠ [6, 6] → numpy_to_covariance a = .error .shapeError) ∧
    (∀ (t : KinCovTarget) (lx ly lz ax ay az : ℚ) (cov : List ℚ),
      numpy_to_kinematics_with_covariance t ⟨.f64, [3], [lx, ly, lz]⟩
          ⟨.f64, [3], [ax, ay, az]⟩ ⟨.f64, [6, 6], cov⟩ =
        .ok (mkKinCovMsg t
          (mkKinMsg (match t with | .accelCov => .accel | .twistCov => .twist)
            (.Vector3 lx ly lz) (.Vector3 ax ay az)) cov)) := by
  refine ⟨fun t lx ly lz ax ay az cov hcov => ?_, fun cov => rfl,
    fun d cov => by cases d <;> rfl, fun a h => ?_, fun t lx ly lz ax ay az cov => ?_⟩
  · cases t <;>
      simp [kinematics_with_covariance_to_numpy, kinematics_with_covariance_to_numpy_rest,
        unstamp, stamped_attr, mkKinCovMsg, mkKinMsg, kinematics_to_numpy,
        kinematics_to_numpy_rest, vector_to_numpy, vector_to_numpy_rest, ebind_ok, hcov]
  · obtain ⟨d, sh, data⟩ := a
    simp only [NDArr.mk.injEq] at h
    cases d <;> simp [numpy_to_covariance, assert_is_castable, np_can_cast, ebind_ok,
      epure, h, DType.rank]
  · cases t <;> rfl

/-- Claim C5 witness: a concrete 36-element covariance decodes to the 6 by 6
reshape (then flattens back exactly), and a (3,)-shaped covariance raises
ShapeError. -/
theorem covariance_reshape_flatten_roundtrip_witness :
    kinematics_with_covariance_to_numpy
        (.TwistWithCovariance (.Twist (.Vector3 1 2 3) (.Vector3 4 5 6))
          ((List.range 36).map (fun k => mkRat k 1))) false =
      .ok (⟨.f64, [3], [1, 2, 3]⟩, ⟨.f64, [3], [4, 5, 6]⟩,
        ⟨.f64, [6, 6], (List.range 36).map (fun k => mkRat k 1)⟩) ∧
    numpy_to_covariance ⟨.f64, [3], [1, 2, 3]⟩ = .error .shapeError :=
  ⟨covariance_reshape_flatten_roundtrip.1 .twistCov 1 2 3 4 5 6 _
    (by decide),
   covariance_reshape_flatten_roundtrip.2.2.2.1 _ (by decide)⟩

/-- Claim C6: unwrapping is total and pure — on each of the twelve recognized
stamped types it projects the payload field, on every other message it is the
identity — and, for a stamped message whose payload is itself unstamped (as the
ROS field types guarantee), each registered decoder returns on the stamped message
exactly what it returns on the unwrapped payload. -/
theorem unstamp_total_and_decode_equivalence :
    (∀ m : Msg, unstamp (.Vector3Stamped m) = m ∧ unstamp (.PointStamped m) = m ∧
      unstamp (.AccelStamped m) = m ∧ unstamp (.AccelWithCovarianceStamped m) = m ∧
      unstamp (.InertiaStamped m) = m ∧ unstamp (.PolygonStamped m) = m ∧
      unstamp (.PoseStamped m) = m ∧ unstamp (.QuaternionStamped m) = m ∧
      unstamp (.TransformStamped m) = m ∧ unstamp (.TwistStamped m) = m ∧
      unstamp (.TwistWithCovarianceStamped m) = m ∧ unstamp (.WrenchStamped m) = m) ∧
    (∀ m : Msg, stamped_attr m = none → unstamp m = m) ∧
    (∀ (hom : Bool) (m : Msg), stamped_attr m = none →
      vector_to_numpy (.Vector3Stamped m) hom = vector_to_numpy m hom ∧
      vector_to_numpy (.PointStamped m) hom = vector_to_numpy m hom ∧
      kinematics_to_numpy (.AccelStamped m) hom = kinematics_to_numpy m hom ∧
      kinematics_to_numpy (.TwistStamped m) hom = kinematics_to_numpy m hom ∧
      kinematics_to_numpy (.WrenchStamped m) hom = kinematics_to_numpy m hom ∧
      kinematics_with_covariance_to_numpy (.AccelWithCovarianceStamped m) hom =
        kinematics_with_covariance_to_numpy m hom ∧
      kinematics_with_covariance_to_numpy (.TwistWithCovarianceStamped m) hom =
        kinematics_with_covariance_to_numpy m hom ∧
      inertia_to_numpy (.InertiaStamped m) hom = inertia_to_numpy m hom ∧
      polygon_to_numpy (.PolygonStamped m) hom = polygon_to_numpy m hom ∧
      quaternion_to_numpy (.QuaternionStamped m) = quaternion_to_numpy m ∧
      (∀ asRot : NPQuat → NDArr,
        frame_to_numpy asRot (.PoseStamped m) hom = frame_to_numpy asRot m hom ∧
        frame_to_numpy asRot (.TransformStamped m) hom = frame_to_numpy asRot m hom)) := by
  refine ⟨fun m => ⟨rfl, rfl, rfl, rfl, rfl, rfl, rfl, rfl, rfl, rfl, rfl, rfl⟩,
    fun m h => unstamp_of_attr_none h, fun hom m h => ?_⟩
  have hu : unstamp m = m := unstamp_of_attr_none h
  refine ⟨?_, ?_, ?_, ?_, ?_, ?_, ?_, ?_, ?_, ?_, fun asRot => ⟨?_, ?_⟩⟩
  all_goals
    simp only [vector_to_numpy, kinematics_to_numpy,
      kinematics_with_covariance_to_numpy, inertia_to_numpy, polygon_to_numpy,
      quaternion_to_numpy, frame_to_numpy]
    rw [hu]
    try exact rfl

/-- Claim C6 witness: the equivalence at a concrete stamped vector. -/
theorem unstamp_total_and_decode_equivalence_witness :
    vector_to_numpy (.Vector3Stamped (.Vector3 1 2 3)) false =
      vector_to_numpy (.Vector3 1 2 3) false ∧
    unstamp (.Accel (.Vector3 1 2 3) (.Vector3 4 5 6)) =
      .Accel (.Vector3 1 2 3) (.Vector3 4 5 6) :=
  ⟨(unstamp_total_and_decode_equivalence.2.2 false (.Vector3 1 2 3) rfl).1,
   unstamp_total_and_decode_equivalence.2.1 _ rfl⟩

/-- Whenever the inertia decoder body succeeds, the tensor it returns is the 3 by 3
mirror-symmetric assembly of the six moment fields. -/
theorem inertia_rest_tensor_symmetric (msg : Msg) (hom : Bool) (mass : ℚ)
    (c T : NDArr) (h : inertia_to_numpy_rest msg hom = .ok (mass, c, T)) :
    T.shape = [3, 3] ∧ T.elem2 0 1 = T.elem2 1 0 ∧ T.elem2 0 2 = T.elem2 2 0 ∧
      T.elem2 1 2 = T.elem2 2 1 := by
  cases msg <;> simp only [inertia_to_numpy_rest] at h
  case Inertia mm com xx xy xz yy yz zz =>
    cases hv : vector_to_numpy com hom with
    | error e =>
        rw [hv, ebind_err] at h
        exact absurd h (by simp)
    | ok a =>
        rw [hv, ebind_ok] at h
        simp only [Except.ok.injEq, Prod.mk.injEq] at h
        obtain ⟨h1, h2, h3⟩ := h
        subst h3
        exact ⟨rfl, rfl, rfl, rfl⟩
  all_goals exact absurd h (by simp)

/-- Claim C8: the inertia decoder always returns a symmetric 3 by 3 tensor
(mirrored across the diagonal from the six moment fields); the encoder, given a
castable mass, a valid 3-vector center of mass and a (3,3) tensor, writes ixx, ixy,
ixz, iyy, izz from the upper triangle and the yz moment from tensor[2, 1], and
raises ShapeError for every tensor whose shape is not (3,3). -/
theorem inertia_codec_symmetric_and_upper_triangle :
    (∀ (msg : Msg) (hom : Bool) (mass : ℚ) (c T : NDArr),
      inertia_to_numpy msg hom = .ok (mass, c, T) →
      T.shape = [3, 3] ∧ T.elem2 0 1 = T.elem2 1 0 ∧ T.elem2 0 2 = T.elem2 2 0 ∧
        T.elem2 1 2 = T.elem2 2 1) ∧
    (∀ (mass : ℚ) (dc d2 : DType) (cx cy cz t00 t01 t02 t10 t11 t12 t20 t21 t22 : ℚ),
      numpy_to_inertia mass ⟨dc, [3], [cx, cy, cz]⟩
          ⟨d2, [3, 3], [t00, t01, t02, t10, t11, t12, t20, t21, t22]⟩ =
        .ok (.Inertia mass (.Vector3 cx cy cz) t00 t01 t02 t11 t21 t22)) ∧
    (∀ (mass : ℚ) (dc : DType) (cx cy cz : ℚ) (T : NDArr), T.shape ≠ [3, 3] →
      numpy_to_inertia mass ⟨dc, [3], [cx, cy, cz]⟩ T = .error .shapeError) := by
  refine ⟨fun msg hom mass c T h => inertia_rest_tensor_symmetric (unstamp msg) hom mass c T h,
    fun mass dc d2 cx cy cz t00 t01 t02 t10 t11 t12 t20 t21 t22 => ?_,
    fun mass dc cx cy cz T h => ?_⟩
  · simp [numpy_to_inertia, assert_scalar_f64, assert_castable_f64, ebind_ok, epure,
      numpy_to_vector_ok3 VecTarget.vector3 dc (np_can_cast_f64 dc), mkVecMsg,
      NDArr.elem2]
  · obtain ⟨d2, sh, data⟩ := T
    simp only [NDArr.mk.injEq] at h
    simp [numpy_to_inertia, assert_scalar_f64, assert_castable_f64, ebind_ok, epure,
      numpy_to_vector_ok3 VecTarget.vector3 dc (np_can_cast_f64 dc), mkVecMsg, h]

/-- Claim C8 witness: decoding a concrete Inertia message yields the symmetric
tensor; encoding a concrete (3,3) tensor reads iyz from position (2,1); a (2,2)
tensor raises ShapeError. -/
theorem inertia_codec_symmetric_and_upper_triangle_witness :
    ((NDArr.mk .f64 [3, 3] [1, 2, 3, 2, 4, 5, 3, 5, 6]).shape = [3, 3] ∧
      (NDArr.mk .f64 [3, 3] [1, 2, 3, 2, 4, 5, 3, 5, 6]).elem2 0 1 =
        (NDArr.mk .f64 [3, 3] [1, 2, 3, 2, 4, 5, 3, 5, 6]).elem2 1 0 ∧
      (NDArr.mk .f64 [3, 3] [1, 2, 3, 2, 4, 5, 3, 5, 6]).elem2 0 2 =
        (NDArr.mk .f64 [3, 3] [1, 2, 3, 2, 4, 5, 3, 5, 6]).elem2 2 0 ∧
      (NDArr.mk .f64 [3, 3] [1, 2, 3, 2, 4, 5, 3, 5, 6]).elem2 1 2 =
        (NDArr.mk .f64 [3, 3] [1, 2, 3, 2, 4, 5, 3, 5, 6]).elem2 2 1) ∧
    numpy_to_inertia 7 ⟨.f64, [3], [0, 0, 0]⟩
        ⟨.f64, [3, 3], [10, 11, 12, 13, 14, 15, 16, 17, 18]⟩ =
      .ok (.Inertia 7 (.Vector3 0 0 0) 10 11 12 14 17 18) ∧
    numpy_to_inertia 7 ⟨.f64, [3], [0, 0, 0]⟩ ⟨.f64, [2, 2], [1, 2, 3, 4]⟩ =
      .error .shapeError :=
  ⟨inertia_codec_symmetric_and_upper_triangle.1
      (.Inertia 7 (.Vector3 0 0 0) 1 2 3 4 5 6) false 7 ⟨.f64, [3], [0, 0, 0]⟩
      ⟨.f64, [3, 3], [1, 2, 3, 2, 4, 5, 3, 5, 6]⟩ rfl,
   inertia_codec_symmetric_and_upper_triangle.2.1 7 .f64 .f64 0 0 0 10 11 12 13 14 15 16 17 18,
   inertia_codec_symmetric_and_upper_triangle.2.2 7 .f64 0 0 0 _ (by decide)⟩

/-- exceptMap succeeds pointwise. -/
theorem exceptMap_ok {ε α β : Type} {f : α → Except ε β} {g : α → β} (l : List α)
    (H : ∀ a ∈ l, f a = .ok (g a)) : exceptMap f l = .ok (l.map g) := by
  induction l with
  | nil => rfl
  | cons a as ih =>
      simp only [List.map_cons, exceptMap, H a (by simp), ebind_ok,
        ih (fun j hj => H j (by simp [hj]))]

/-- Column extraction from an r by n row-major grid filled by f. -/
theorem npColumn_of_grid (d : DType) (r n : Nat) (f : Nat → ℚ) {j : Nat} (hj : j < n) :
    npColumn ⟨d, [r, n], (List.range (r * n)).map f⟩ j =
      ⟨d, [r], (List.range r).map (fun i => f (i * n + j))⟩ := by
  unfold npColumn
  simp only [NDArr.pyLen, NDArr.elem2, List.headD_cons, List.getD_cons_succ,
    List.getD_cons_zero]
  congr 1
  refine List.map_congr_left fun i hi => ?_
  have hir := List.mem_range.mp hi
  have hbound : i * n + j < r * n := by
    calc i * n + j < i * n + n := Nat.add_lt_add_left hj _
    _ = (i + 1) * n := (Nat.succ_mul i n).symm
    _ ≤ r * n := Nat.mul_le_mul_right n hir
  simp only [List.getD_eq_getElem?_getD, List.getElem?_map, List.getElem?_range hbound]
  rfl

/-- Claim C7 counterexample: a float32 array of shape (4, 1) — 2-D, four rows,
losslessly castable to float32 — does not produce a polygon message: its column's
homogeneous component 0.5 makes the per-column vector encode raise
InvalidHomogeneousComponentError; and a float64 1-D array raises CastError, not the
claimed ShapeError, because the cast check precedes the shape check. -/
theorem polygon_encode_claim_cx :
    numpy_to_polygon ⟨.f32, [4, 1], [1, 2, 3, mkRat 1 2]⟩ =
      .error .invalidHomogeneous ∧
    numpy_to_polygon ⟨.f64, [2], [1, 2]⟩ = .error .castError :=
  ⟨rfl, rfl⟩

/-- Encoding a 3 by n row-major grid: one Point32 per column. -/
theorem polygon_encode_grid3 (d : DType) (hd : np_can_cast d (.dt .f32) = .ok true)
    (n : Nat) (hn : 0 < n) (f : Nat → ℚ) :
    numpy_to_polygon ⟨d, [3, n], (List.range (3 * n)).map f⟩ =
      .ok (.Polygon ((List.range n).map (fun j =>
        Msg.Point32 (f j) (f (n + j)) (f (2 * n + j))))) := by
  have hH : ∀ j ∈ List.range n,
      numpy_to_vector .point32 (npColumn ⟨d, [3, n], (List.range (3 * n)).map f⟩ j) =
        .ok (Msg.Point32 (f j) (f (n + j)) (f (2 * n + j))) := by
    intro j hj0
    have hj := List.mem_range.mp hj0
    rw [npColumn_of_grid d 3 n f hj, show List.range 3 = [0, 1, 2] from rfl]
    simp only [List.map_cons, List.map_nil, Nat.zero_mul, Nat.zero_add, Nat.one_mul]
    exact numpy_to_vector_ok3 .point32 d hd (f j) (f (n + j)) (f (2 * n + j))
  have hn0 : ¬(n = 0) := Nat.pos_iff_ne_zero.mp hn
  simp only [numpy_to_polygon,
    assert_castable_of_ok ⟨d, [3, n], (List.range (3 * n)).map f⟩ hd, ebind_ok,
    NDArr.ndim, NDArr.pyLen, List.headD_cons, List.length_cons, List.length_nil,
    List.getD_cons_succ, List.getD_cons_zero]
  simp only [hn0, exceptMap_ok (List.range n) hH, ebind_ok]
  simp

/-- Encoding a 4 by n row-major grid whose bottom row is within isclose tolerance
of 1: one Point32 per column, built from the first three rows. -/
theorem polygon_encode_grid4 (d : DType) (hd : np_can_cast d (.dt .f32) = .ok true)
    (n : Nat) (hn : 0 < n) (f : Nat → ℚ)
    (hiso : ∀ j, j < n → npIsclose (f (3 * n + j)) 1 = true) :
    numpy_to_polygon ⟨d, [4, n], (List.range (4 * n)).map f⟩ =
      .ok (.Polygon ((List.range n).map (fun j =>
        Msg.Point32 (f j) (f (n + j)) (f (2 * n + j))))) := by
  have hH : ∀ j ∈ List.range n,
      numpy_to_vector .point32 (npColumn ⟨d, [4, n], (List.range (4 * n)).map f⟩ j) =
        .ok (Msg.Point32 (f j) (f (n + j)) (f (2 * n + j))) := by
    intro j hj0
    have hj := List.mem_range.mp hj0
    rw [npColumn_of_grid d 4 n f hj, show List.range 4 = [0, 1, 2, 3] from rfl]
    simp only [List.map_cons, List.map_nil, Nat.zero_mul, Nat.zero_add, Nat.one_mul]
    exact numpy_to_vector_ok4 .point32 d hd (f j) (f (n + j)) (f (2 * n + j))
      (f (3 * n + j)) (hiso j hj)
  have hn0 : ¬(n = 0) := Nat.pos_iff_ne_zero.mp hn
  simp only [numpy_to_polygon,
    assert_castable_of_ok ⟨d, [4, n], (List.range (4 * n)).map f⟩ hd, ebind_ok,
    NDArr.ndim, NDArr.pyLen, List.headD_cons, List.length_cons, List.length_nil,
    List.getD_cons_succ, List.getD_cons_zero]
  simp only [hn0, exceptMap_ok (List.range n) hH, ebind_ok]
  simp

/-- Decoding the polygon produced from a 3 by n grid returns the grid exactly (as
float32). -/
theorem polygon_decode_grid3 (n : Nat) (f : Nat → ℚ) :
    polygon_to_numpy (.Polygon ((List.range n).map (fun j =>
        Msg.Point32 (f j) (f (n + j)) (f (2 * n + j))))) false =
      .ok ⟨.f32, [3, n], (List.range (3 * n)).map f⟩ := by
  have hmap := @exceptMap_map_ok NPErr Msg NDArr Nat (fun p => vector_to_numpy p false)
    (fun j => Msg.Point32 (f j) (f (n + j)) (f (2 * n + j)))
    (fun j => (⟨.f32, [3], [f j, f (n + j), f (2 * n + j)]⟩ : NDArr))
    (List.range n) (fun j hj => rfl)
  simp only [polygon_to_numpy, unstamp, stamped_attr, polygon_to_numpy_rest, hmap,
    ebind_ok]
  simp
  rw [← range_flatMap_map 3 n f, show List.range 3 = [0, 1, 2] from rfl]
  simp [Function.comp_def, Nat.zero_mul, Nat.zero_add, Nat.one_mul]

/-- A castable input that is not 2-D with 3 or 4 rows raises ShapeError. -/
theorem polygon_shape_err_castable (a : NDArr)
    (hc : np_can_cast a.dtype (.dt .f32) = .ok true)
    (h : ¬(a.ndim = 2 ∧ (a.pyLen = 3 ∨ a.pyLen = 4))) :
    numpy_to_polygon a = .error .shapeError := by
  simp only [numpy_to_polygon, assert_castable_of_ok a hc, ebind_ok]
  rw [if_pos h]

/-- Claim C7 (amended): for inputs that pass the cast check against float32 (which
runs first; a non-castable input raises CastError even for a bad shape): a 2-D
array with 3 rows and n ≥ 1 columns encodes to a polygon of exactly n Point32
messages, one per column, and decoding that polygon returns an array of the
original shape equal to the input (exactly, hence within 32-bit precision); a 2-D
array with 4 rows encodes the first three rows of each column the same way
provided its bottom row is elementwise within np.isclose tolerance of 1.0 (else
the per-column encode raises InvalidHomogeneousComponentError); and any castable
input that is not 2-D with 3 or 4 rows raises ShapeError. -/
theorem polygon_encode_decode_amended :
    (∀ (d : DType), np_can_cast d (.dt .f32) = .ok true → ∀ (n : Nat), 0 < n →
      ∀ (f : Nat → ℚ),
      numpy_to_polygon ⟨d, [3, n], (List.range (3 * n)).map f⟩ =
        .ok (.Polygon ((List.range n).map (fun j =>
          Msg.Point32 (f j) (f (n + j)) (f (2 * n + j))))) ∧
      polygon_to_numpy (.Polygon ((List.range n).map (fun j =>
          Msg.Point32 (f j) (f (n + j)) (f (2 * n + j))))) false =
        .ok ⟨.f32, [3, n], (List.range (3 * n)).map f⟩) ∧
    (∀ (d : DType), np_can_cast d (.dt .f32) = .ok true → ∀ (n : Nat), 0 < n →
      ∀ (f : Nat → ℚ), (∀ j, j < n → npIsclose (f (3 * n + j)) 1 = true) →
      numpy_to_polygon ⟨d, [4, n], (List.range (4 * n)).map f⟩ =
        .ok (.Polygon ((List.range n).map (fun j =>
          Msg.Point32 (f j) (f (n + j)) (f (2 * n + j)))))) ∧
    (∀ (a : NDArr), np_can_cast a.dtype (.dt .f32) = .ok true →
      ¬(a.ndim = 2 ∧ (a.pyLen = 3 ∨ a.pyLen = 4)) →
      numpy_to_polygon a = .error .shapeError) :=
  ⟨fun d hd n hn f => ⟨polygon_encode_grid3 d hd n hn f, polygon_decode_grid3 n f⟩,
   fun d hd n hn f hiso => polygon_encode_grid4 d hd n hn f hiso,
   fun a hc h => polygon_shape_err_castable a hc h⟩

/-- Claim C7 witness: a concrete (3,2) float32 grid encodes to two points and
decodes back; a concrete (4,1) grid with bottom entry 1 encodes to one point; a
1-D float16 array raises ShapeError. -/
theorem polygon_encode_decode_amended_witness :
    (numpy_to_polygon ⟨.f32, [3, 2], (List.range (3 * 2)).map (fun k => mkRat k 1)⟩ =
      .ok (.Polygon ((List.range 2).map (fun j =>
        Msg.Point32 (mkRat j 1) (mkRat (2 + j) 1) (mkRat (2 * 2 + j) 1)))) ∧
     polygon_to_numpy (.Polygon ((List.range 2).map (fun j =>
        Msg.Point32 (mkRat j 1) (mkRat (2 + j) 1) (mkRat (2 * 2 + j) 1)))) false =
      .ok ⟨.f32, [3, 2], (List.range (3 * 2)).map (fun k => mkRat k 1)⟩) ∧
    numpy_to_polygon ⟨.f32, [4, 1],
        (List.range (4 * 1)).map (fun k => if k < 3 then mkRat k 1 else 1)⟩ =
      .ok (.Polygon ((List.range 1).map (fun j =>
        Msg.Point32 (if j < 3 then mkRat j 1 else 1)
          (if 1 + j < 3 then mkRat (1 + j) 1 else 1)
          (if 2 * 1 + j < 3 then mkRat (2 * 1 + j) 1 else 1)))) ∧
    numpy_to_polygon ⟨.f16, [5], [1, 2, 3, 4, 5]⟩ = .error .shapeError :=
  ⟨polygon_encode_decode_amended.1 .f32 rfl 2 (by decide) (fun k => mkRat k 1),
   polygon_encode_decode_amended.2.1 .f32 rfl 1 (by decide)
     (fun k => if k < 3 then mkRat k 1 else 1)
     (fun j hj => by
       have hj0 : j = 0 := Nat.lt_one_iff.mp hj
       subst hj0
       rfl),
   polygon_encode_decode_amended.2.2 ⟨.f16, [5], [1, 2, 3, 4, 5]⟩ rfl (by decide)⟩

/-- Claim C2 witness: the Wrench round trip at a concrete pair of 3-arrays. -/
theorem kinematics_encode_decode_roundtrip_witness :
    numpy_to_kinamatics .wrench ⟨.f64, [3], [1, 2, 3]⟩ ⟨.f64, [3], [4, 5, 6]⟩ =
      .ok (.Wrench (.Vector3 1 2 3) (.Vector3 4 5 6)) ∧
    kinematics_to_numpy (.Wrench (.Vector3 1 2 3) (.Vector3 4 5 6)) false =
      .ok (⟨.f64, [3], [1, 2, 3]⟩, ⟨.f64, [3], [4, 5, 6]⟩) :=
  kinematics_encode_decode_roundtrip .wrench .f64 .f64 1 2 3 4 5 6

/-- Claim C9 witness: the translated cast check fails on a concrete matrix of any
shape and dtype. -/
theorem frame_matrix_cast_check_message_class_witness :
    numpy_to_frame1 (fun _ => npquaternion 1 0 0 0) FrameTarget.pose
      ⟨.f32, [2, 2], [1, 2, 3, 4]⟩ = .error .dtypeInterpError :=
  frame_matrix_cast_check_message_class (fun _ => npquaternion 1 0 0 0)
    FrameTarget.pose ⟨.f32, [2, 2], [1, 2, 3, 4]⟩

/-- Claim C10 witness: the quaternion round trip at a concrete message. -/
theorem quaternion_roundtrip_exact_witness :
    (quaternion_to_numpy (Msg.Quaternion 1 2 3 4)).bind
        (fun q => numpy_to_quaternion (QuatInput.q q)) =
      .ok (Msg.Quaternion 1 2 3 4) :=
  (quaternion_roundtrip_exact 1 2 3 4).1
